import Mathlib

/-!
Verification of the DSL-to-OpenSCAD compiler in src/Model/dsl_v04_to_scad.py,
with a small fragment of src/Model/dsl_v03_fixed.py (Instance.call_scad and
to_scad) for the claims that cite it.  Python floats are modelled as rationals
rendered in decimal, which agrees with Python float repr on the decimal
literals that occur in DSL sources; Python dicts are modelled as association
lists with last-write-wins lookup; Python exceptions (KeyError, IndexError)
are modelled with Except.
-/

set_option maxHeartbeats 4000000
set_option maxRecDepth 8000

namespace Printy

/-- Strip leading and trailing whitespace from a character list (str.strip). -/
def listStrip (cs : List Char) : List Char :=
  ((cs.dropWhile Char.isWhitespace).reverse.dropWhile Char.isWhitespace).reverse

/-- Python str.strip(). -/
def pyStrip (s : String) : String := String.mk (listStrip s.data)

/-- Python str.startswith. -/
def pyStarts (s pre : String) : Bool := pre.data.isPrefixOf s.data

/-- Python str.endswith. -/
def pyEndsWith (s suf : String) : Bool := suf.data.isSuffixOf s.data

/-- Python str.upper(), character by character. -/
def pyUpper (s : String) : String := String.mk (s.data.map Char.toUpper)

/-- Python str.lower(), character by character. -/
def pyLower (s : String) : String := String.mk (s.data.map Char.toLower)

/-- Whether pat occurs as a contiguous segment of the list. -/
def segOccurs (pat : List Char) : List Char → Bool
  | [] => decide (pat = [])
  | c :: rest => pat.isPrefixOf (c :: rest) || segOccurs pat rest

/-- Whether pat occurs as a substring of s (Python "pat in s"). -/
def strContains (s pat : String) : Bool := segOccurs pat.data s.data

/-- Python str.split() with no separator: split on whitespace runs, no empty
    tokens.  The fuel argument is the length of the list, which bounds the
    number of tokens. -/
def tokenizeAux : Nat → List Char → List String
  | 0, _ => []
  | fuel + 1, cs =>
    match cs.dropWhile Char.isWhitespace with
    | [] => []
    | c :: rest =>
      String.mk ((c :: rest).takeWhile (fun ch => ¬ ch.isWhitespace)) ::
        tokenizeAux fuel ((c :: rest).dropWhile (fun ch => ¬ ch.isWhitespace))

/-- Python raw.split(): whitespace tokenization. -/
def tokenize (s : String) : List String := tokenizeAux s.data.length s.data

/-- Python raw.split(None, 1) and then indexing [1]: none models the
    IndexError raised when there is no second piece. -/
def splitFirst (s : String) : Option (String × String) :=
  let p := s.data.span (fun ch => ¬ ch.isWhitespace)
  let rest2 := p.2.dropWhile Char.isWhitespace
  if rest2 = [] then none else some (String.mk p.1, String.mk rest2)

/-- Python str.rstrip(":"). -/
def stripColons (s : String) : String :=
  String.mk ((s.data.reverse.dropWhile (fun c => c = ':')).reverse)

/-- The word characters of the source regexes: [A-Za-z0-9_]. -/
def wordChar (c : Char) : Bool := c.isAlphanum || c = '_'

/-- Model of _sanitize: replace non-word characters by underscores in the stripped
    name, and prepend p_ unless the result starts with a letter or
    underscore. -/
def sanitize (name : String) : String :=
  let cs := (listStrip name.data).map (fun c => if wordChar c then c else '_')
  match cs with
  | [] => ("p_")
  | c :: _ => if c.isAlpha || c = '_' then String.mk cs else ("p_") ++ String.mk cs

/-- Numeric value of a list of decimal digit characters. -/
def digitsVal (cs : List Char) : Nat := cs.foldl (fun a c => a * 10 + (c.toNat - 48)) 0

/-- One attempt of the regex [-+]?\d*\.?\d+ at the head of the list:
    the matched characters and the remainder, or none. -/
def tryNum (cs : List Char) : Option (List Char × List Char) :=
  let sp : List Char × List Char :=
    match cs with
    | c :: rest => if c = '+' || c = '-' then ([c], rest) else ([], cs)
    | [] => ([], [])
  let d1p := sp.2.span Char.isDigit
  match d1p.2 with
  | '.' :: cs3 =>
    let d2p := cs3.span Char.isDigit
    if d2p.1 ≠ [] then some (sp.1 ++ d1p.1 ++ '.' :: d2p.1, d2p.2)
    else if d1p.1 ≠ [] then some (sp.1 ++ d1p.1, d1p.2)
    else none
  | _ => if d1p.1 ≠ [] then some (sp.1 ++ d1p.1, d1p.2) else none

/-- re.findall of [-+]?\d*\.?\d+: scan left to right, matching where possible
    and advancing one character otherwise.  Every match consumes at least one
    character, so fuel equal to the length of the list never runs out. -/
def findNumsAux : Nat → List Char → List (List Char)
  | 0, _ => []
  | _ + 1, [] => []
  | fuel + 1, c :: rest =>
    match tryNum (c :: rest) with
    | some (mt, rest2) => mt :: findNumsAux fuel rest2
    | none => findNumsAux fuel rest

/-- All number substrings of s, per the source regex. -/
def findNums (s : String) : List (List Char) := findNumsAux s.data.length s.data

def pow10 : Nat → Nat
  | 0 => 1
  | n + 1 => 10 * pow10 n

/-- The rational ip.fp (fp of k digits), negated when neg, built directly on
    the normalizing constructor Rat.divInt. -/
def decQ (neg : Bool) (ip fp k : Nat) : ℚ :=
  let mag := Rat.divInt (Int.ofNat (ip * pow10 k + fp)) (Int.ofNat (pow10 k))
  if neg then Rat.neg mag else mag

/-- q times 10^e. -/
def qScale10 (q : ℚ) (e : Int) : ℚ :=
  if 0 ≤ e then Rat.divInt (q.num * Int.ofNat (pow10 e.toNat)) (Int.ofNat q.den)
  else Rat.divInt q.num (Int.ofNat q.den * Int.ofNat (pow10 (-e).toNat))

/-- q plus a natural number. -/
def qAddNat (q : ℚ) (n : Nat) : ℚ :=
  Rat.divInt (q.num + Int.ofNat n * Int.ofNat q.den) (Int.ofNat q.den)

/-- Rational value of one regex match (sign, integer digits, optional dot and
    fraction digits).  Mirrors Python float() on the matched text. -/
def numQ (cs : List Char) : ℚ :=
  let sp : Bool × List Char :=
    match cs with
    | '-' :: rest => (true, rest)
    | '+' :: rest => (false, rest)
    | _ => (false, cs)
  let d1p := sp.2.span Char.isDigit
  let d2 : List Char :=
    match d1p.2 with
    | '.' :: rest => rest.takeWhile Char.isDigit
    | _ => []
  decQ sp.1 (digitsVal d1p.1) (digitsVal d2) d2.length

/-- Python float(str) on a stripped string: sign, digits, optional fraction,
    optional exponent; none models the ValueError on any other shape. -/
def pyFloatQ (s : String) : Option ℚ :=
  let sp : Bool × List Char :=
    match s.data with
    | '-' :: rest => (true, rest)
    | '+' :: rest => (false, rest)
    | _ => (false, s.data)
  let d1p := sp.2.span Char.isDigit
  let fr : List Char × List Char :=
    match d1p.2 with
    | '.' :: rest => ((rest.span Char.isDigit).1, (rest.span Char.isDigit).2)
    | _ => ([], d1p.2)
  if d1p.1 = [] ∧ fr.1 = [] then none
  else
    let base : ℚ := decQ sp.1 (digitsVal d1p.1) (digitsVal fr.1) fr.1.length
    match fr.2 with
    | [] => some base
    | c :: rest =>
      if c = 'e' || c = 'E' then
        let ep : Int × List Char :=
          match rest with
          | '+' :: r2 => (1, r2)
          | '-' :: r2 => (-1, r2)
          | _ => (1, rest)
        let edp := ep.2.span Char.isDigit
        if edp.1 = [] then none
        else if edp.2 = [] then some (qScale10 base (ep.1 * Int.ofNat (digitsVal edp.1)))
        else none
      else none

/-- Fraction digits of r / d in decimal, minimal (stops at remainder 0),
    truncated at the fuel bound. -/
def fracDigits : Nat → Nat → Nat → List Nat
  | 0, _, _ => []
  | _ + 1, 0, _ => []
  | fuel + 1, r, d => ((r * 10) / d) :: fracDigits fuel ((r * 10) % d) d

/-- Decimal rendering of a rational, as Python prints a float of moderate
    magnitude: at least one fraction digit, no trailing zeros. -/
def fmtF (q : ℚ) : String :=
  let sgn := if q.num < 0 then ("-") else ("")
  let n := q.num.natAbs
  let d := q.den
  let frac := fracDigits 17 (n % d) d
  sgn ++ toString (n / d) ++ "." ++
    (if frac = [] then ("0") else String.mk (frac.map Nat.digitChar))

/-- A parsed parameter value: Python int (only defaults), float, str, or a
    3-tuple of floats. -/
inductive Value where
  | int : Int → Value
  | flt : ℚ → Value
  | str : String → Value
  | vec : ℚ → ℚ → ℚ → Value
  deriving DecidableEq, Repr

/-- Python str()/format of a parameter value. -/
def fmtVal : Value → String
  | .int n => toString n
  | .flt q => fmtF q
  | .str s => s
  | .vec x y z => "(" ++ fmtF x ++ ", " ++ fmtF y ++ ", " ++ fmtF z ++ ")"

/-- The string branch of _safe_vec3: first three regex numbers, else zero. -/
def vecFromStr (s : String) : ℚ × ℚ × ℚ :=
  match findNums s with
  | a :: b :: c :: _ => (numQ a, numQ b, numQ c)
  | _ => (0, 0, 0)

/-- Model of _safe_vec3 (v0.4): a 3-tuple yields its components; any other value is
    stringified and mined for at least three numbers, else (0,0,0). -/
def safeVec3 : Value → ℚ × ℚ × ℚ
  | .vec x y z => (x, y, z)
  | v => vecFromStr (fmtVal v)

/-- Format a float triple as the source f-string [x,y,z]. -/
def tripStr (t : ℚ × ℚ × ℚ) : String :=
  "[" ++ fmtF t.1 ++ "," ++ fmtF t.2.1 ++ "," ++ fmtF t.2.2 ++ "]"

/-- Model of _pos_str. -/
def posStr (v : Value) : String := tripStr (safeVec3 v)

/-- Association-list lookup by key. -/
def lookupAssoc {α : Type} (l : List (String × α)) (n : String) : Option α :=
  match l with
  | [] => none
  | (k, v) :: rest => if k = n then some v else lookupAssoc rest n

/-- Python dict .get(k): dict writes overwrite, so the last binding wins. -/
def pget {α : Type} (l : List (String × α)) (k : String) : Option α :=
  lookupAssoc l.reverse k

/-- Python dict .get(k, default). -/
def pgetD {α : Type} (l : List (String × α)) (k : String) (d : α) : α :=
  (pget l k).getD d

/-- Classify one key=value token value: 3-vector if it starts with ( or [,
    else float if it parses, else the raw string. -/
def paramVal (v0 : String) : Value :=
  let v := pyStrip v0
  if pyStarts v ("(") || pyStarts v ("[") then
    let t := vecFromStr v
    .vec t.1 t.2.1 t.2.2
  else
    match pyFloatQ v with
    | some q => .flt q
    | none => .str v

/-- Model of _params: keep only tokens containing =, split at the first =. -/
def paramsOf : List String → List (String × Value)
  | [] => []
  | t :: rest =>
    if t.data.contains '=' then
      (String.mk (t.data.takeWhile (fun c => ¬ c = '=')),
        paramVal (String.mk ((t.data.dropWhile (fun c => ¬ c = '=')).drop 1))) :: paramsOf rest
    else paramsOf rest

/-- Python float() applied to a parameter value; none models the exception. -/
def floatOfVal : Value → Option ℚ
  | .int n => some (Rat.divInt n 1)
  | .flt q => some q
  | .str s => pyFloatQ (pyStrip s)
  | .vec _ _ _ => none

namespace V4

/-- class Use: a reference to a part with its transform. -/
structure UseNode where
  name : String
  translate : Value
  rotate : Value
  scale : Option Value
  deriving DecidableEq, Repr

/-- Use(...): the constructor sanitizes the name. -/
def mkUse (name : String) (translate rotate : Value) (scale : Option Value) : UseNode :=
  ⟨sanitize name, translate, rotate, scale⟩

/-- Use(name) with the default transforms. -/
def useDefault (name : String) : UseNode := mkUse name (.vec 0 0 0) (.vec 0 0 0) none

/-- The Node sum: Prim, Use, Extrude, Boolean, MultiUnion.  Prim stores its
    uppercased kind and parameters; Extrude stores the height and its 2D
    Prim child. -/
inductive Node where
  | prim (kind : String) (params : List (String × Value))
  | use (u : UseNode)
  | extrude (height : ℚ) (kind2d : String) (params2d : List (String × Value))
  | bool (op : String) (left right : UseNode)
  | multiUnion (names : List String)
  deriving DecidableEq, Repr

/-- class Part. -/
structure Part where
  name : String
  nodes : List Node
  is_boolean : Bool
  deriving DecidableEq, Repr

/-- class Instance: a top-level placement of a part. -/
structure Instance where
  target : String
  translate : Value
  rotate : Value
  scale : Option Value
  label : String
  deriving DecidableEq, Repr

/-- Instance(...): the constructor sanitizes the target; label defaults to
    the unsanitized target. -/
def mkInstance (target : String) (translate rotate : Value) (scale : Option Value)
    (label : Option String) : Instance :=
  ⟨sanitize target, translate, rotate, scale, label.getD target⟩

/-- class Model: the symbol table (insertion ordered) and the instances. -/
structure Model where
  parts : List (String × Part)
  instances : List Instance
  deriving DecidableEq, Repr

def emptyModel : Model := ⟨[], []⟩

/-- model.parts[n], as an option. -/
def lookupPart (m : Model) (n : String) : Option Part := lookupAssoc m.parts n

def partKeys (m : Model) : List String := m.parts.map (·.1)

/-- Model.get_or_create: fetch the part or append a fresh one; returns the
    model and the sanitized key. -/
def getOrCreate (m : Model) (name : String) : Model × String :=
  let key := sanitize name
  match lookupPart m key with
  | some _ => (m, key)
  | none => ({ m with parts := m.parts ++ [(key, ⟨sanitize key, [], false⟩)] }, key)

/-- In-place mutation of the part stored under a key. -/
def modifyPart (m : Model) (key : String) (f : Part → Part) : Model :=
  { m with parts := m.parts.map (fun kp => if kp.1 = key then (kp.1, f kp.2) else kp) }

/-- cur.nodes.append(n). -/
def appendNode (m : Model) (key : String) (n : Node) : Model :=
  modifyPart m key (fun p => { p with nodes := p.nodes ++ [n] })

/-- Model of _chamfer_wrap: skip when the chamfer is absent or zero, else wrap in a
    Minkowski sum with a thin disk. -/
def chamferWrap (objScad : String) (chamfer : Option ℚ) : String :=
  match chamfer with
  | none => objScad
  | some c =>
    if c = 0 then objScad
    else "minkowski() \x7b " ++ objScad ++ " cylinder(r=" ++ fmtF c ++ ", h=0.01, center=true); \x7d"

/-- Model of _emit_primitive_scad on a Prim with the given kind and parameters. -/
def emitPrimitiveScad (kind : String) (prm : List (String × Value)) : String :=
  let chamfer : Option ℚ := (pget prm ("chamfer")).bind floatOfVal
  if kind = "CUBE" then
    let w := pgetD prm ("width") (.int 10)
    let d := pgetD prm ("depth") (.int 10)
    let h := pgetD prm ("height") (.int 10)
    let pos := posStr (pgetD prm ("position") (.vec 0 0 0))
    chamferWrap ("translate(" ++ pos ++ ") cube([" ++ fmtVal w ++ "," ++ fmtVal d ++ ","
      ++ fmtVal h ++ "], center=true);") chamfer
  else if kind = "CYLINDER" then
    let r := pgetD prm ("radius") (.int 5)
    let h := pgetD prm ("height") (.int 10)
    let pos := posStr (pgetD prm ("position") (.vec 0 0 0))
    chamferWrap ("translate(" ++ pos ++ ") cylinder(r=" ++ fmtVal r ++ ", h=" ++ fmtVal h
      ++ ", center=true);") chamfer
  else if kind = "SPHERE" then
    let r := pgetD prm ("radius") (.int 5)
    let pos := posStr (pgetD prm ("position") (.vec 0 0 0))
    "translate(" ++ pos ++ ") sphere(r=" ++ fmtVal r ++ ");"
  else if kind = "ROD" then
    let r := pgetD prm ("radius") (.int 3)
    let len := pgetD prm ("length") (.int 30)
    let pos := posStr (pgetD prm ("position") (.vec 0 0 0))
    let orient := pyLower (fmtVal (pgetD prm ("orientation") (.str ("z"))))
    let body := "cylinder(r=" ++ fmtVal r ++ ", h=" ++ fmtVal len ++ ", center=true);"
    let body :=
      if orient = "x" then "rotate([0,90,0]) " ++ body
      else if orient = "y" then "rotate([90,0,0]) " ++ body
      else body
    "translate(" ++ pos ++ ") " ++ body
  else if kind = "TORUS" then
    let bigR := pgetD prm ("major_radius") (.int 20)
    let r := pgetD prm ("minor_radius") (.int 5)
    let pos := posStr (pgetD prm ("position") (.vec 0 0 0))
    "translate(" ++ pos ++ ") " ++ "rotate_extrude() translate([" ++ fmtVal bigR
      ++ ",0,0]) circle(r=" ++ fmtVal r ++ ");"
  else if kind = "CIRCLE" then
    let r := pgetD prm ("radius") (.int 10)
    let t := safeVec3 (pgetD prm ("position") (.vec 0 0 0))
    "translate([" ++ fmtF t.1 ++ "," ++ fmtF t.2.1 ++ "]) circle(r=" ++ fmtVal r ++ ");"
  else
    "// Unknown primitive " ++ kind ++ ";"

def nodeSize : Node → Nat
  | .prim _ _ => 1
  | .use _ => 1
  | .extrude _ _ _ => 1
  | .bool _ _ _ => 1
  | .multiUnion names => names.length + 1

lemma nodeSize_pos (n : Node) : 1 ≤ nodeSize n := by
  cases n <;> simp [nodeSize]

def nodesSize : List Node → Nat
  | [] => 0
  | n :: rest => nodeSize n + nodesSize rest

/-- Number of part keys not yet on the resolution stack: the well-founded
    measure of the inlining recursion. -/
def unvisited (m : Model) (visited : List String) : Nat :=
  ((partKeys m).filter (fun k => ¬ (k ∈ visited))).length

lemma filter_len_mono {α : Type} (l : List α) (p q : α → Bool) (h : ∀ x, q x = true → p x = true) :
    (l.filter q).length ≤ (l.filter p).length := by
  induction l with
  | nil => simp
  | cons a tl ih =>
    by_cases hq : q a = true
    · simp [List.filter, hq, h a hq]; omega
    · simp only [List.filter, Bool.not_eq_true] at hq ⊢
      rw [hq]
      by_cases hp : p a = true
      · rw [hp]; simp; omega
      · simp only [Bool.not_eq_true] at hp; rw [hp]; exact ih

lemma filter_len_lt {α : Type} (l : List α) (p q : α → Bool) (h : ∀ x, q x = true → p x = true)
    (a : α) (ha : a ∈ l) (hpa : p a = true) (hqa : q a = false) :
    (l.filter q).length < (l.filter p).length := by
  induction l with
  | nil => simp at ha
  | cons b tl ih =>
    rcases List.mem_cons.mp ha with hb | hb
    · subst hb
      simp only [List.filter, hqa, hpa]
      have := filter_len_mono tl p q h
      simp; omega
    · by_cases hq : q b = true
      · simp only [List.filter, hq, h b hq]
        simpa using ih hb
      · simp only [Bool.not_eq_true] at hq
        rw [List.filter, hq]
        by_cases hp : p b = true
        · rw [List.filter, hp]
          have := ih hb
          simp at this ⊢
          omega
        · simp only [Bool.not_eq_true] at hp
          rw [List.filter, hp]
          exact ih hb

lemma unvisited_lt (m : Model) (visited : List String) (n : String)
    (hmem : n ∈ partKeys m) (hnv : ¬ n ∈ visited) :
    unvisited m (n :: visited) < unvisited m visited := by
  apply filter_len_lt
  · intro x hx
    simp only [decide_eq_true_eq] at hx ⊢
    intro hxv
    exact hx (List.mem_cons_of_mem _ hxv)
  · exact hmem
  · simpa using hnv
  · simp

lemma lookupAssoc_mem {α : Type} (l : List (String × α)) (n : String) (v : α)
    (h : lookupAssoc l n = some v) : n ∈ l.map (·.1) := by
  induction l with
  | nil => simp [lookupAssoc] at h
  | cons kp rest ih =>
    obtain ⟨k, p⟩ := kp
    by_cases hk : k = n
    · subst hk; simp
    · simp only [lookupAssoc, hk, if_false] at h
      simpa using Or.inr (ih h)

lemma lookup_mem_keys (m : Model) (n : String) (p : Part) (h : lookupPart m n = some p) :
    n ∈ partKeys m := lookupAssoc_mem m.parts n p h

mutual

/-- Model of _emit_use_scad: guard against cycles, optionally inline the body of the
    referenced part (KeyError if it is not in the symbol table), then wrap in
    scale, rotate and translate, and terminate with a semicolon. -/
def emitUseScad (m : Model) (u : UseNode) (inl : Bool) (visited : List String) :
    Except String String :=
  if hv : u.name ∈ visited then .ok ("// Cycle detected: " ++ u.name)
  else
    let callE : Except String String :=
      if inl then
        match hp : lookupPart m u.name with
        | none => .error ("KeyError: " ++ u.name)
        | some p =>
          match emitNodes m p.nodes true (u.name :: visited) with
          | .error e => .error e
          | .ok inner => .ok (if pyStrip inner = "" then u.name ++ "();" else inner)
      else .ok (u.name ++ "();")
    match callE with
    | .error e => .error e
    | .ok call0 =>
      let call1 :=
        match u.scale with
        | some s => "scale([" ++ fmtVal s ++ "," ++ fmtVal s ++ "," ++ fmtVal s ++ "]) " ++ call0
        | none => call0
      let r := safeVec3 u.rotate
      let call2 := if r ≠ ((0 : ℚ), (0 : ℚ), (0 : ℚ)) then "rotate(" ++ tripStr r ++ ") " ++ call1 else call1
      let call3 := "translate(" ++ posStr u.translate ++ ") " ++ call2
      .ok (if ¬ pyEndsWith (pyStrip call3) (";") then call3 ++ ";" else call3)
termination_by (unvisited m visited, 0)
decreasing_by
  all_goals simp_wf
  all_goals exact Prod.Lex.left _ _ (unvisited_lt m visited u.name (lookup_mem_keys m u.name p hp) hv)

/-- One iteration of the loop body of _emit_nodes. -/
def emitNode (m : Model) (n : Node) (inl : Bool) (visited : List String) :
    Except String String :=
  match n with
  | .prim kind prm =>
    let tmp := emitPrimitiveScad kind prm
    .ok (if pyEndsWith (pyStrip tmp) (";") then tmp else tmp ++ ";")
  | .use u => emitUseScad m u inl visited
  | .extrude h kind2d prm2d =>
    let twoD := emitPrimitiveScad kind2d prm2d
    .ok ("linear_extrude(height=" ++ fmtF h ++ ") \x7b " ++ twoD ++ " \x7d;")
  | .bool op l r =>
    match emitUseScad m l true visited with
    | .error e => .error e
    | .ok a =>
      match emitUseScad m r true visited with
      | .error e => .error e
      | .ok b => .ok (op ++ "() \x7b " ++ a ++ " " ++ b ++ " \x7d")
  | .multiUnion names =>
    match emitMultiPieces m names visited with
    | .error e => .error e
    | .ok l => .ok ("union() \x7b\n  " ++ String.intercalate "\n  " l ++ "\n\x7d")
termination_by (unvisited m visited, 2 + nodeSize n)
decreasing_by
  all_goals simp_wf
  all_goals apply Prod.Lex.right
  all_goals simp only [nodeSize]
  all_goals omega

/-- Model of _emit_nodes: emit each node and join with newline-and-indent. -/
def emitNodes (m : Model) (nodes : List Node) (inl : Bool) (visited : List String) :
    Except String String :=
  match nodes with
  | [] => .ok ("")
  | n :: rest =>
    match emitNode m n inl visited with
    | .error e => .error e
    | .ok piece =>
      match emitNodes m rest inl visited with
      | .error e => .error e
      | .ok restS => .ok (if rest = [] then piece else piece ++ "\n  " ++ restS)
termination_by (unvisited m visited, 3 + nodesSize nodes)
decreasing_by
  all_goals simp_wf
  all_goals apply Prod.Lex.right
  all_goals simp only [nodesSize]
  all_goals (have hns := nodeSize_pos n; omega)

/-- The list comprehension of the MultiUnion branch: each named part is
    emitted via an inlined default Use. -/
def emitMultiPieces (m : Model) (names : List String) (visited : List String) :
    Except String (List String) :=
  match names with
  | [] => .ok []
  | nm :: rest =>
    match emitUseScad m (useDefault nm) true visited with
    | .error e => .error e
    | .ok piece =>
      match emitMultiPieces m rest visited with
      | .error e => .error e
      | .ok l => .ok (piece :: l)
termination_by (unvisited m visited, 1 + names.length)
decreasing_by
  all_goals simp_wf
  all_goals apply Prod.Lex.right
  all_goals (try simp only [List.length_cons])
  all_goals omega

end

/-- module_scad: boolean parts inline their geometry. -/
def moduleScad (m : Model) (part : Part) : Except String String :=
  match emitNodes m part.nodes part.is_boolean [] with
  | .error e => .error e
  | .ok body => .ok ("module " ++ part.name ++ "() \x7b\n  " ++ body ++ "\n\x7d\n")

/-- The per-instance assembly lines of to_scad: a comment and the placed
    call, with the layout offset advancing by 140 per instance. -/
def instanceLines : List Instance → Nat → ℚ → List String
  | [], _, _ => []
  | inst :: rest, idx, x =>
    let call0 := inst.target ++ "();"
    let call1 :=
      match inst.scale with
      | some s => "scale([" ++ fmtVal s ++ "," ++ fmtVal s ++ "," ++ fmtVal s ++ "]) " ++ call0
      | none => call0
    let r := safeVec3 inst.rotate
    let call2 := if r ≠ ((0 : ℚ), (0 : ℚ), (0 : ℚ)) then "rotate(" ++ tripStr r ++ ") " ++ call1 else call1
    ("  // Instance " ++ toString idx ++ ": " ++ inst.label) ::
      ("  translate([" ++ fmtF x ++ ",0,0]) " ++ call2) :: instanceLines rest (idx + 1) (qAddNat x 140)

/-- The module emissions, in symbol-table order; an error aborts everything. -/
def modulePieces (m : Model) : List (String × Part) → Except String (List String)
  | [] => .ok []
  | (_, part) :: rest =>
    match moduleScad m part with
    | .error e => .error e
    | .ok s =>
      match modulePieces m rest with
      | .error e => .error e
      | .ok l => .ok (s :: l)

/-- to_scad: header, one module per part, then the assembly. -/
def to_scad (m : Model) : Except String String :=
  match modulePieces m m.parts with
  | .error e => .error e
  | .ok mods =>
    .ok (String.intercalate ("\n")
      ((("// Generated by DSL v0.4\n$fn=72;\n") :: mods) ++
        ("module assembly()\x7b" :: instanceLines m.instances 1 0) ++ ["\x7d\nassembly();"]))

/-- The parser state: the model under construction, the currently open part
    (by key) and the pending extrude height. -/
structure PState where
  model : Model
  cur : Option String
  pending : Option ℚ
  deriving DecidableEq, Repr

/-- UNION A B AS C pattern: the anchored match of the source regex. -/
def matchBoolSpec (rest : String) : Option (String × String × String) :=
  let cs := rest.data.dropWhile Char.isWhitespace
  let ap := cs.span wordChar
  if ap.1 = [] then none
  else if ap.2.takeWhile Char.isWhitespace = [] then none
  else
    let bp := (ap.2.dropWhile Char.isWhitespace).span wordChar
    if bp.1 = [] then none
    else if bp.2.takeWhile Char.isWhitespace = [] then none
    else
      let asp := (bp.2.dropWhile Char.isWhitespace).span wordChar
      if ¬ pyUpper (String.mk asp.1) = "AS" then none
      else if asp.2.takeWhile Char.isWhitespace = [] then none
      else
        let cp := (asp.2.dropWhile Char.isWhitespace).span wordChar
        if cp.1 = [] then none
        else some (String.mk ap.1, String.mk bp.1, String.mk cp.1)

/-- One iteration of the parse loop on a single source line. -/
def parseLine (st : PState) (line : String) : Except String PState :=
  let raw := pyStrip line
  if raw = "" || pyStarts raw ("#") then .ok st
  else
    let toks := tokenize raw
    let head := pyUpper (toks.headD (""))
    if head = "PART" || head = "GROUP" then
      let st1 : PState := { st with cur := none }
      match splitFirst raw with
      | none => .error ("IndexError: list index out of range")
      | some pr =>
        let name := stripColons (pyStrip pr.2)
        let mk := getOrCreate st1.model name
        .ok { st1 with model := mk.1, cur := some mk.2 }
    else if head = "USE" then
      let st1 : PState := { st with cur := none }
      match toks[1]? with
      | none => .error ("IndexError: list index out of range")
      | some name =>
        let prm := paramsOf (toks.drop 2)
        let pos := pgetD prm ("position") (.vec 0 0 0)
        let rot := pgetD prm ("rotate") (.vec 0 0 0)
        let scl := pget prm ("scale")
        match st1.cur with
        | some key =>
          .ok { st1 with model := appendNode st1.model key (.use (mkUse name pos rot scl)) }
        | none =>
          .ok { st1 with model := { st1.model with
              instances := st1.model.instances ++ [mkInstance name pos rot scl (some ("USE " ++ name))] } }
    else if head = "MOVE" then
      let st1 : PState := { st with cur := none }
      match toks[1]? with
      | none => .error ("IndexError: list index out of range")
      | some name =>
        let prm := paramsOf (toks.drop 2)
        let byv := pgetD prm ("by") (.vec 0 0 0)
        .ok { st1 with model := { st1.model with
            instances := st1.model.instances ++ [mkInstance name byv (.vec 0 0 0) none (some ("MOVE " ++ name))] } }
    else if head = "ROTATE" then
      let st1 : PState := { st with cur := none }
      match toks[1]? with
      | none => .error ("IndexError: list index out of range")
      | some name =>
        let prm := paramsOf (toks.drop 2)
        let byv := pgetD prm ("by") (.vec 0 0 0)
        .ok { st1 with model := { st1.model with
            instances := st1.model.instances ++ [mkInstance name (.vec 0 0 0) byv none (some ("ROTATE " ++ name))] } }
    else if head = "UNION" || head = "CUT" || head = "INTERSECT" then
      match splitFirst raw with
      | none => .error ("IndexError: list index out of range")
      | some pr =>
        match matchBoolSpec pr.2 with
        | none => .ok st
        | some abc =>
          let op := if head = "UNION" then "union"
            else if head = "CUT" then "difference" else "intersection"
          let mk := getOrCreate st.model abc.2.2
          .ok { st with model := modifyPart mk.1 mk.2 (fun p =>
            { p with
              is_boolean := true,
              nodes := [.bool op (useDefault abc.1) (useDefault abc.2.1)] }) }
    else if head = "EXTRUDE" then
      let prm := paramsOf (toks.drop 1)
      let h := pgetD prm ("height") (.flt 10)
      .ok { st with pending := some ((floatOfVal h).getD 10) }
    else
      match st.cur with
      | some key =>
        let kind := toks.headD ("")
        let prm := paramsOf (toks.drop 1)
        match st.pending with
        | some h =>
          .ok { st with
            model := appendNode st.model key (.extrude h (pyUpper kind) prm),
            pending := none }
        | none =>
          .ok { st with model := appendNode st.model key (.prim (pyUpper kind) prm) }
      | none => .ok st

def parseLines : PState → List String → Except String PState
  | st, [] => .ok st
  | st, l :: rest =>
    match parseLine st l with
    | .error e => .error e
    | .ok st2 => parseLines st2 rest

/-- text.splitlines(): split at newline characters. -/
def splitNlAux (acc : List Char) : List Char → List String
  | [] => [String.mk acc.reverse]
  | c :: rest =>
    if c = '\n' then String.mk acc.reverse :: splitNlAux [] rest
    else splitNlAux (c :: acc) rest

def splitNl (s : String) : List String := splitNlAux [] s.data

/-- parse: run the line state machine over the source text. -/
def parse (text : String) : Except String Model :=
  match parseLines ⟨emptyModel, none, none⟩ (splitNl text) with
  | .error e => .error e
  | .ok st => .ok st.model

end V4

namespace V3

/-- Model of _vec3 (v0.3): a tuple yields its components; otherwise the stringified
    value must contain exactly three regex numbers, else (0,0,0). -/
def vec3 : Value → ℚ × ℚ × ℚ
  | .vec x y z => (x, y, z)
  | v =>
    match findNums (fmtVal v) with
    | [a, b, c] => (numQ a, numQ b, numQ c)
    | _ => (0, 0, 0)

/-- Model of _pos_str and _rot_str (identical in the source). -/
def posStr3 (v : Value) : String := tripStr (vec3 v)

/-- Python comparison of a stored transform against the tuple (0,0,0). -/
def isZeroTuple : Value → Bool
  | .vec x y z => decide (x = 0 ∧ y = 0 ∧ z = 0)
  | _ => false

/-- class Instance (v0.3). -/
structure Instance where
  target : String
  translate : Value
  rotate : Value
  scale : Option Value
  label : String
  deriving DecidableEq, Repr

/-- Instance.call_scad: scale innermost when present, then rotate unless it
    equals the zero tuple, then translate unless it equals the zero tuple. -/
def call_scad (inst : Instance) : String :=
  let call0 := inst.target ++ "();"
  let call1 :=
    match inst.scale with
    | some s => "scale([" ++ fmtVal s ++ "," ++ fmtVal s ++ "," ++ fmtVal s ++ "]) " ++ call0
    | none => call0
  let call2 :=
    if ¬ isZeroTuple inst.rotate then "rotate(" ++ posStr3 inst.rotate ++ ") " ++ call1 else call1
  if ¬ isZeroTuple inst.translate then "translate(" ++ posStr3 inst.translate ++ ") " ++ call2
  else call2

/-- class Model (v0.3): part bodies are already-emitted SCAD lines. -/
structure Model where
  parts : List (String × List String)
  instances : List Instance
  deriving DecidableEq, Repr

/-- Part.module_scad. -/
def module_scad (name : String) (body : List String) : String :=
  "module " ++ name ++ "() \x7b\n  " ++ String.intercalate "\n  " body ++ "\n\x7d\n"

/-- The per-instance assembly lines of v0.3 to_scad, layout step 120. -/
def instLines : List Instance → Nat → ℚ → List String
  | [], _, _ => []
  | inst :: rest, idx, x =>
    ("  // Instance " ++ toString idx ++ ": " ++ inst.label) ::
      ("  translate([" ++ fmtF x ++ ",0,0]) " ++ call_scad inst) :: instLines rest (idx + 1) (qAddNat x 120)

/-- to_scad (v0.3). -/
def to_scad (m : Model) : String :=
  String.intercalate ("\n")
    ((("// Generated by DSL v0.3 (fixed)\n$fn=72;\n") :: m.parts.map (fun kp => module_scad kp.1 kp.2)) ++
      ("module assembly()\x7b" :: instLines m.instances 1 0) ++ ["\x7d", "assembly();"])

end V3

/-! Support lemmas about the string helpers. -/

lemma data_append (a b : String) : (a ++ b).data = a.data ++ b.data := rfl

lemma dropWhile_append_one (xs : List Char) (c : Char) (hc : c.isWhitespace = false) :
    (xs ++ [c]).dropWhile Char.isWhitespace = xs.dropWhile Char.isWhitespace ++ [c] := by
  induction xs with
  | nil => simp [List.dropWhile, hc]
  | cons a tl ih =>
    by_cases ha : a.isWhitespace <;> simp [List.dropWhile_cons, ha, ih]

lemma listStrip_append_one (xs : List Char) (c : Char) (hc : c.isWhitespace = false) :
    listStrip (xs ++ [c]) = xs.dropWhile Char.isWhitespace ++ [c] := by
  unfold listStrip
  rw [dropWhile_append_one xs c hc, List.reverse_append]
  simp [List.dropWhile_cons, hc]

/-- Strings whose last character is the semicolon. -/
def endsSemi (s : String) : Prop := ∃ ys, s.data = ys ++ [';']

lemma endsSemi_append (a b : String) (h : endsSemi b) : endsSemi (a ++ b) := by
  obtain ⟨ys, hy⟩ := h
  exact ⟨a.data ++ ys, by rw [data_append, hy, List.append_assoc]⟩

lemma endsSemi_call (s : String) : endsSemi (s ++ ("();")) :=
  ⟨s.data ++ ['(', ')'], by rw [data_append]; simp⟩

lemma strip_endsWith_semi (s : String) (h : endsSemi s) :
    pyEndsWith (pyStrip s) (";") = true := by
  obtain ⟨ys, hy⟩ := h
  unfold pyEndsWith pyStrip
  show List.isSuffixOf _ (listStrip s.data) = true
  rw [hy, listStrip_append_one ys ';' (by decide)]
  simp [List.isSuffixOf, List.isPrefixOf]

lemma str_append_assoc (a b c : String) : a ++ b ++ c = a ++ (b ++ c) :=
  congrArg String.mk (List.append_assoc a.data b.data c.data)

lemma nest_semi (a r sc b : String) :
    ∃ body, (a ++ (r ++ (sc ++ b))) ++ (";") = a ++ (r ++ (sc ++ body)) :=
  ⟨b ++ (";"), by simp only [str_append_assoc]⟩

lemma nest_plain (a r sc b : String) :
    ∃ body, a ++ (r ++ (sc ++ b)) = a ++ (r ++ (sc ++ body)) := ⟨b, rfl⟩

lemma pget_append_last {α : Type} (l : List (String × α)) (k : String) (v : α) :
    pget (l ++ [(k, v)]) k = some v := by
  unfold pget
  rw [List.reverse_append]
  simp [lookupAssoc]

lemma pget_append_ne {α : Type} (l : List (String × α)) (k k2 : String) (v : α)
    (h : ¬ k = k2) : pget (l ++ [(k, v)]) k2 = pget l k2 := by
  unfold pget
  rw [List.reverse_append]
  simp [lookupAssoc, h]

end Printy

open Printy Printy.V4 in
/-- Claim C1, evaluated at the failing input: the v0.4 parser closes any open
part before it tests whether one is open, so a USE line inside an open GROUP
block still appends a top-level Instance and leaves the open part body empty.
The claim says the Use node must be appended to the open part body. -/
theorem c1_use_inside_open_part_still_goes_to_instances :
    parse ("GROUP g:\nUSE a") =
      Except.ok ⟨[("g", ⟨"g", [], false⟩)],
        [⟨"a", .vec 0 0 0, .vec 0 0 0, none, "USE a"⟩]⟩ := by
  rfl

open Printy Printy.V4 in
/-- Claim C4, evaluated at the failing input: in v0.4, the assembly emission
drops the translate stored on the Instance (only the layout offset appears),
while the v0.3 Instance.call_scad cited by the same claim does emit it
alongside the layout offset. -/
theorem c4_v04_assembly_drops_instance_translate :
    parse ("MOVE x by=(5,6,7)") =
      Except.ok ⟨[], [⟨"x", .vec 5 6 7, .vec 0 0 0, none, "MOVE x"⟩]⟩ ∧
    to_scad ⟨[], [⟨"x", .vec 5 6 7, .vec 0 0 0, none, "MOVE x"⟩]⟩ =
      Except.ok ("// Generated by DSL v0.4\n$fn=72;\n\nmodule assembly()\x7b\n  // Instance 1: MOVE x\n  translate([0.0,0,0]) x();\n\x7d\nassembly();") ∧
    Printy.V3.call_scad ⟨"x", .vec 5 6 7, .vec 0 0 0, none, "MOVE x"⟩ =
      "translate([5.0,6.0,7.0]) x();" ∧
    Printy.V3.to_scad ⟨[], [⟨"x", .vec 5 6 7, .vec 0 0 0, none, "MOVE x"⟩]⟩ =
      "// Generated by DSL v0.3 (fixed)\n$fn=72;\n\nmodule assembly()\x7b\n  // Instance 1: MOVE x\n  translate([0.0,0,0]) translate([5.0,6.0,7.0]) x();\n\x7d\nassembly();" := by
  refine ⟨by rfl, ?_, by rfl, by rfl⟩
  simp +decide [to_scad, modulePieces, instanceLines]

open Printy Printy.V4 in
/-- Claim C8: undeclared identifiers are not handled uniformly.  A boolean
part whose operand a was never declared makes the whole emission fail with a
KeyError, while a top-level Instance of the undeclared a emits fine as a bare
reference call. -/
theorem c8_undeclared_reference_behavior_differs_by_path :
    parse ("UNION a b AS c") =
      Except.ok ⟨[("c", ⟨"c", [.bool ("union") (useDefault ("a")) (useDefault ("b"))], true⟩)], []⟩ ∧
    to_scad ⟨[("c", ⟨"c", [.bool ("union") (useDefault ("a")) (useDefault ("b"))], true⟩)], []⟩ =
      Except.error ("KeyError: a") ∧
    parse ("USE a") = Except.ok ⟨[], [⟨"a", .vec 0 0 0, .vec 0 0 0, none, "USE a"⟩]⟩ ∧
    to_scad ⟨[], [⟨"a", .vec 0 0 0, .vec 0 0 0, none, "USE a"⟩]⟩ =
      Except.ok ("// Generated by DSL v0.4\n$fn=72;\n\nmodule assembly()\x7b\n  // Instance 1: USE a\n  translate([0.0,0,0]) a();\n\x7d\nassembly();") ∧
    strContains ("  translate([0.0,0,0]) a();") ("a();") = true := by
  refine ⟨by rfl, ?_, by rfl, ?_, by rfl⟩
  · simp +decide [to_scad, modulePieces, moduleScad, emitNodes, emitNode, emitUseScad,
      useDefault, mkUse, lookupPart, lookupAssoc, sanitize, listStrip, wordChar]
  · simp +decide [to_scad, modulePieces, instanceLines]

open Printy Printy.V4 in
/-- The model parsed from the self-referential boolean declaration. -/
def c2CycleModel : Printy.V4.Model :=
  ⟨[("a", ⟨"a", [.bool ("union") (useDefault ("a")) (useDefault ("a"))], true⟩)], []⟩

/-- The scene emitted for the self-referential boolean declaration. -/
def c2CycleOut : String :=
  "// Generated by DSL v0.4\n$fn=72;\n\nmodule a() \x7b\n  union() \x7b translate([0.0,0.0,0.0]) union() \x7b // Cycle detected: a // Cycle detected: a \x7d; translate([0.0,0.0,0.0]) union() \x7b // Cycle detected: a // Cycle detected: a \x7d; \x7d\n\x7d\n\nmodule assembly()\x7b\n\x7d\nassembly();"

open Printy Printy.V4 in
/-- Claim C2: the resolver checks the visited stack before inlining and
emits the cycle marker comment instead of recursing whenever the target is
already being expanded; consequently UNION a a AS a parses and its emission
terminates with cycle markers in the output.  (Termination of emission in
general is witnessed by emitUseScad, emitNode, emitNodes being total
functions of the model.) -/
theorem c2_cycle_guard_and_self_union_terminates :
    (∀ (m : Model) (u : UseNode) (inl : Bool) (visited : List String),
        u.name ∈ visited →
        emitUseScad m u inl visited = Except.ok ("// Cycle detected: " ++ u.name)) ∧
    parse ("UNION a a AS a") = Except.ok c2CycleModel ∧
    to_scad c2CycleModel = Except.ok c2CycleOut ∧
    strContains c2CycleOut ("// Cycle detected: a") = true := by
  refine ⟨?_, by rfl, ?_, by rfl⟩
  · intro m u inl visited h
    unfold emitUseScad
    simp [h]
  · simp +decide [c2CycleModel, c2CycleOut, to_scad, modulePieces, moduleScad, emitNodes,
      emitNode, emitUseScad, useDefault, mkUse, lookupPart, lookupAssoc, sanitize, listStrip,
      wordChar, safeVec3, posStr, tripStr, fmtF, fracDigits, pyStrip, pyEndsWith]

open Printy Printy.V4 in
/-- Claim C2 witness: the cycle guard applied at a concrete input. -/
theorem c2_witness :
    emitUseScad emptyModel (useDefault ("a")) true [(useDefault ("a")).name] =
      Except.ok ("// Cycle detected: " ++ (useDefault ("a")).name) :=
  c2_cycle_guard_and_self_union_terminates.1 emptyModel (useDefault ("a")) true
    [(useDefault ("a")).name] (by decide)

open Printy Printy.V4 in
/-- The model parsed from the cube / sphere / CUT / USE example. -/
def c3CutModel : Printy.V4.Model :=
  ⟨[("a", ⟨"a", [.prim ("CUBE") [("width", .flt 10), ("height", .flt 10), ("depth", .flt 10)]], false⟩),
    ("b", ⟨"b", [.prim ("SPHERE") [("radius", .flt 5)]], false⟩),
    ("c", ⟨"c", [.bool ("difference") (useDefault ("a")) (useDefault ("b"))], true⟩)],
   [⟨"c", .vec 0 0 0, .vec 0 0 0, none, "USE c"⟩]⟩

open Printy Printy.V4 in
/-- The part stored under c in that model. -/
def c3PartC : Printy.V4.Part :=
  ⟨"c", [.bool ("difference") (useDefault ("a")) (useDefault ("b"))], true⟩

open Printy Printy.V4 in
/-- Claim C3: a Boolean node always emits its two operands inlined (the
operands are resolved with the inline flag set, whatever flag the enclosing
emission carries), and on the concrete CUT example the module for c is a
difference whose children are the expanded cube and sphere geometry, not
reference calls. -/
theorem c3_boolean_parts_inline_operands :
    (∀ (m : Model) (op : String) (l r : UseNode) (inl : Bool) (visited : List String)
        (a b : String),
        emitUseScad m l true visited = Except.ok a →
        emitUseScad m r true visited = Except.ok b →
        emitNode m (.bool op l r) inl visited =
          Except.ok (op ++ "() \x7b " ++ a ++ " " ++ b ++ " \x7d")) ∧
    parse ("PART a:\nCUBE width=10 height=10 depth=10\nPART b:\nSPHERE radius=5\nCUT a b AS c\nUSE c") =
      Except.ok c3CutModel ∧
    lookupPart c3CutModel ("c") = some c3PartC ∧
    moduleScad c3CutModel c3PartC =
      Except.ok ("module c() \x7b\n  difference() \x7b translate([0.0,0.0,0.0]) translate([0.0,0.0,0.0]) cube([10.0,10.0,10.0], center=true); translate([0.0,0.0,0.0]) translate([0.0,0.0,0.0]) sphere(r=5.0); \x7d\n\x7d\n") := by
  refine ⟨?_, by rfl, by rfl, ?_⟩
  · intro m op l r inl visited a b ha hb
    unfold emitNode
    simp [ha, hb]
  · simp +decide [c3CutModel, c3PartC, moduleScad, emitNodes, emitNode, emitUseScad,
      emitPrimitiveScad, chamferWrap, useDefault, mkUse, lookupPart, lookupAssoc, sanitize,
      listStrip, wordChar, safeVec3, posStr, tripStr, fmtF, fmtVal, fracDigits, pyStrip,
      pyEndsWith, pget, pgetD, lookupAssoc, floatOfVal]

open Printy Printy.V4 in
/-- Claim C3 witness: the boolean-operand equation applied at a concrete
input whose operand emissions are the cycle markers. -/
theorem c3_witness :
    emitNode emptyModel (.bool ("difference") (useDefault ("a")) (useDefault ("a"))) false
      [(useDefault ("a")).name] =
      Except.ok ("difference" ++ "() \x7b " ++ ("// Cycle detected: " ++ (useDefault ("a")).name)
        ++ " " ++ ("// Cycle detected: " ++ (useDefault ("a")).name) ++ " \x7d") :=
  c3_boolean_parts_inline_operands.1 emptyModel ("difference") (useDefault ("a"))
    (useDefault ("a")) false [(useDefault ("a")).name]
    ("// Cycle detected: " ++ (useDefault ("a")).name)
    ("// Cycle detected: " ++ (useDefault ("a")).name)
    (by unfold emitUseScad; simp)
    (by unfold emitUseScad; simp)

open Printy Printy.V4 in
/-- Claim C9: for CUBE and CYLINDER, emitting with chamfer=0 appended to the
parameters gives exactly the same geometry text as emitting with no chamfer
parameter at all (the Minkowski wrapping is skipped in both cases). -/
theorem c9_chamfer_zero_equals_absent :
    ∀ (prm : List (String × Value)),
      pget prm ("chamfer") = none →
      emitPrimitiveScad ("CUBE") (prm ++ [("chamfer", .flt 0)]) =
          emitPrimitiveScad ("CUBE") prm ∧
        emitPrimitiveScad ("CYLINDER") (prm ++ [("chamfer", .flt 0)]) =
          emitPrimitiveScad ("CYLINDER") prm := by
  intro prm h
  constructor <;>
  · unfold emitPrimitiveScad
    rw [pget_append_last, h]
    simp +decide [pgetD, pget_append_ne, chamferWrap, floatOfVal]

open Printy Printy.V4 in
/-- Claim C9 witness: the equation applied at a concrete parameter list. -/
theorem c9_witness :
    emitPrimitiveScad ("CUBE") ([("width", Value.flt 20)] ++ [("chamfer", .flt 0)]) =
        emitPrimitiveScad ("CUBE") [("width", Value.flt 20)] ∧
      emitPrimitiveScad ("CYLINDER") ([("width", Value.flt 20)] ++ [("chamfer", .flt 0)]) =
        emitPrimitiveScad ("CYLINDER") [("width", Value.flt 20)] :=
  c9_chamfer_zero_equals_absent [("width", Value.flt 20)] (by rfl)

open Printy Printy.V4 in
/-- Claim C10: a PART or GROUP line never touches the pending extrude
height; an EXTRUDE line sets it whether or not a part is open; and on the
concrete source where EXTRUDE appears before any part is open, the height
still wraps the next primitive line of the part opened afterwards. -/
theorem c10_pending_extrude_persists :
    (∀ (st : PState) (raw : String) (st2 : PState),
        (pyStrip raw = "" || pyStarts (pyStrip raw) ("#")) = false →
        (pyUpper ((tokenize (pyStrip raw)).headD ("")) = "PART" ∨
          pyUpper ((tokenize (pyStrip raw)).headD ("")) = "GROUP") →
        parseLine st raw = Except.ok st2 → st2.pending = st.pending) ∧
    (∀ (st : PState) (raw : String) (st2 : PState),
        (pyStrip raw = "" || pyStarts (pyStrip raw) ("#")) = false →
        pyUpper ((tokenize (pyStrip raw)).headD ("")) = "EXTRUDE" →
        parseLine st raw = Except.ok st2 →
        st2.pending.isSome = true ∧ st2.cur = st.cur ∧ st2.model = st.model) ∧
    parse ("EXTRUDE height=7\nPART p:\nCIRCLE radius=3") =
      Except.ok ⟨[("p", ⟨"p", [.extrude 7 ("CIRCLE") [("radius", .flt 3)]], false⟩)], []⟩ := by
  refine ⟨?_, ?_, by rfl⟩
  · intro st raw st2 hb hh hok
    unfold parseLine at hok
    simp at hh
    rcases hsp : splitFirst (pyStrip raw) with _ | pr <;>
      rcases hh with hh | hh <;>
      simp [hb, hh, hsp] at hok <;>
      (try subst hok) <;>
      rfl
  · intro st raw st2 hb hh hok
    unfold parseLine at hok
    simp at hh
    simp [hb, hh] at hok
    subst hok
    exact ⟨rfl, rfl, rfl⟩

open Printy Printy.V4 in
/-- Claim C10 witness: the two state-machine properties applied at concrete
lines and states. -/
theorem c10_witness :
    ((pyStrip ("PART q:") = "" || pyStarts (pyStrip ("PART q:")) ("#")) = false ∧
      pyUpper ((tokenize (pyStrip ("PART q:"))).headD ("")) = "PART" ∧
      parseLine ⟨emptyModel, none, some 7⟩ ("PART q:") =
        Except.ok ⟨⟨[("q", ⟨"q", [], false⟩)], []⟩, some ("q"), some 7⟩) ∧
    (⟨⟨[("q", ⟨"q", [], false⟩)], []⟩, some ("q"), some 7⟩ : PState).pending =
      (⟨emptyModel, none, some 7⟩ : PState).pending ∧
    ((pyStrip ("EXTRUDE height=9") = "" || pyStarts (pyStrip ("EXTRUDE height=9")) ("#")) = false ∧
      pyUpper ((tokenize (pyStrip ("EXTRUDE height=9"))).headD ("")) = "EXTRUDE" ∧
      parseLine ⟨emptyModel, none, none⟩ ("EXTRUDE height=9") =
        Except.ok ⟨emptyModel, none, some 9⟩) ∧
    ((⟨emptyModel, none, some 9⟩ : PState).pending.isSome = true ∧
      (⟨emptyModel, none, some 9⟩ : PState).cur = (⟨emptyModel, none, none⟩ : PState).cur ∧
      (⟨emptyModel, none, some 9⟩ : PState).model = (⟨emptyModel, none, none⟩ : PState).model) := by
  refine ⟨⟨by rfl, by rfl, by rfl⟩, ?_, ⟨by rfl, by rfl, by rfl⟩, ?_⟩
  · exact c10_pending_extrude_persists.1 ⟨emptyModel, none, some 7⟩ ("PART q:")
      ⟨⟨[("q", ⟨"q", [], false⟩)], []⟩, some ("q"), some 7⟩ (by rfl) (Or.inl (by rfl)) (by rfl)
  · exact c10_pending_extrude_persists.2.1 ⟨emptyModel, none, none⟩ ("EXTRUDE height=9")
      ⟨emptyModel, none, some 9⟩ (by rfl) (by rfl) (by rfl)

open Printy Printy.V4 in
/-- Claim C7 counterexample: a line consisting only of the keyword USE makes
parsing raise an IndexError that propagates to the caller, contradicting the
claim that such lines are ignored without error. -/
theorem c7_counterexample_bare_use_raises :
    parse ("USE") = Except.error ("IndexError: list index out of range") := by rfl

open Printy Printy.V4 in
/-- Claim C7 as amended: a line carrying at least one token after the
keyword never raises (malformed parameters are defaulted or kept as opaque
strings, and a UNION line without the A B AS C shape is ignored), but a
keyword line missing its argument raises an uncaught IndexError. -/
theorem c7_lenient_except_bare_keywords :
    (∀ (st : PState) (raw : String),
        (splitFirst (pyStrip raw)).isSome = true →
        2 ≤ (tokenize (pyStrip raw)).length →
        (parseLine st raw).isOk = true) ∧
    parse ("UNION a b") = Except.ok emptyModel ∧
    parse ("PART p:\nCUBE width=abc") =
      Except.ok ⟨[("p", ⟨"p", [.prim ("CUBE") [("width", .str ("abc"))]], false⟩)], []⟩ ∧
    parse ("MOVE") = Except.error ("IndexError: list index out of range") := by
  refine ⟨?_, by rfl, by rfl, by rfl⟩
  intro st raw h1 h2
  by_cases hb : (pyStrip raw = "" || pyStarts (pyStrip raw) ("#")) = true
  · simp [parseLine, hb, Except.isOk, Except.toBool]
  · simp only [Bool.not_eq_true] at hb
    simp only [parseLine, hb, Bool.false_eq_true, if_false]
    repeat' split
    all_goals (try rfl)
    all_goals simp_all [List.getElem?_eq_none_iff]
    all_goals omega

open Printy Printy.V4 in
/-- Claim C7 witness: the no-error property applied at a concrete line. -/
theorem c7_witness :
    ((splitFirst (pyStrip ("USE a"))).isSome = true ∧
      2 ≤ (tokenize (pyStrip ("USE a"))).length) ∧
    (parseLine ⟨emptyModel, none, none⟩ ("USE a")).isOk = true :=
  ⟨⟨by rfl, by decide⟩,
    c7_lenient_except_bare_keywords.1 ⟨emptyModel, none, none⟩ ("USE a") (by rfl) (by decide)⟩

open Printy Printy.V4 in
/-- The model parsed from a USE line whose instance carries a translation, a
rotation and a scale. -/
def c5InstModel : Printy.V4.Model :=
  ⟨[], [⟨"x", .vec 9 8 7, .vec 30 0 45, some (.flt 2), "USE x"⟩]⟩

/-- The v0.4 scene emitted for that model. -/
def c5InstOut : String :=
  "// Generated by DSL v0.4\n$fn=72;\n\nmodule assembly()\x7b\n  // Instance 1: USE x\n  translate([0.0,0,0]) rotate([30.0,0.0,45.0]) scale([2.0,2.0,2.0]) x();\n\x7d\nassembly();"

open Printy Printy.V4 in
/-- Claim C5 counterexample: a v0.4 top-level Instance that carries a scale,
a rotation and a translation (9,8,7) is emitted with its rotation and scale
wrappers but with no trace of its own translation (the numbers 9.0, 8.0, 7.0
appear nowhere in the scene), so the emitted nesting is not
translate( rotate( scale( body ) ) ) over the transforms the Instance
carries, refuting the claim for the v0.4 instance path it cites. -/
theorem c5_counterexample_v04_instance_translation_absent :
    parse ("USE x position=(9,8,7) rotate=(30,0,45) scale=2") = Except.ok c5InstModel ∧
    to_scad c5InstModel = Except.ok c5InstOut ∧
    strContains c5InstOut ("rotate([30.0,0.0,45.0]) scale([2.0,2.0,2.0]) x();") = true ∧
    strContains c5InstOut ("9.0") = false ∧
    strContains c5InstOut ("8.0") = false ∧
    strContains c5InstOut ("7.0") = false := by
  refine ⟨by rfl, ?_, by rfl, by rfl, by rfl, by rfl⟩
  simp +decide [c5InstModel, c5InstOut, to_scad, modulePieces, instanceLines, safeVec3,
    tripStr, fmtF, fracDigits, fmtVal]

open Printy Printy.V4 in
/-- Claim C5 as amended: when a Use node carries a translation, a non-zero
rotation and a scale, the emitted wrapper nesting is exactly
translate( rotate( scale( body ) ) ), whatever the inlining mode and whatever
the body resolves to; the same holds of the v0.3 Instance.call_scad; and in
the v0.4 assembly the emitted wrappers keep the same
translate( rotate( scale( body ) ) ) order with scale innermost, but the
translate slot holds only the layout offset: the translation carried by the
Instance itself never appears in the emission, for any translation value. -/
theorem c5_transform_nesting_order :
    (∀ (m : Model) (name : String) (tx ty tz rx ry rz s : ℚ) (inl : Bool)
        (visited : List String) (out : String),
        ¬ (rx, ry, rz) = ((0 : ℚ), (0 : ℚ), (0 : ℚ)) →
        ¬ sanitize name ∈ visited →
        emitUseScad m (mkUse name (.vec tx ty tz) (.vec rx ry rz) (some (.flt s))) inl visited =
          Except.ok out →
        ∃ body, out = "translate(" ++ posStr (Value.vec tx ty tz) ++ ") " ++
          ("rotate(" ++ tripStr (rx, ry, rz) ++ ") " ++
            ("scale([" ++ fmtF s ++ "," ++ fmtF s ++ "," ++ fmtF s ++ "]) " ++ body))) ∧
    (∀ (m : Model) (name : String) (tx ty tz rx ry rz s : ℚ) (visited : List String),
        ¬ (rx, ry, rz) = ((0 : ℚ), (0 : ℚ), (0 : ℚ)) →
        ¬ sanitize name ∈ visited →
        emitUseScad m (mkUse name (.vec tx ty tz) (.vec rx ry rz) (some (.flt s))) false visited =
          Except.ok ("translate(" ++ posStr (Value.vec tx ty tz) ++ ") " ++
            ("rotate(" ++ tripStr (rx, ry, rz) ++ ") " ++
              ("scale([" ++ fmtF s ++ "," ++ fmtF s ++ "," ++ fmtF s ++ "]) " ++
                (sanitize name ++ "();"))))) ∧
    (∀ (target lbl : String) (tx ty tz rx ry rz s : ℚ),
        ¬ (rx, ry, rz) = ((0 : ℚ), (0 : ℚ), (0 : ℚ)) →
        ¬ (tx, ty, tz) = ((0 : ℚ), (0 : ℚ), (0 : ℚ)) →
        Printy.V3.call_scad ⟨target, .vec tx ty tz, .vec rx ry rz, some (.flt s), lbl⟩ =
          "translate(" ++ Printy.V3.posStr3 (Value.vec tx ty tz) ++ ") " ++
            ("rotate(" ++ Printy.V3.posStr3 (Value.vec rx ry rz) ++ ") " ++
              ("scale([" ++ fmtF s ++ "," ++ fmtF s ++ "," ++ fmtF s ++ "]) " ++
                (target ++ "();")))) ∧
    (∀ (target lbl : String) (tx ty tz rx ry rz s x : ℚ) (idx : Nat),
        ¬ (rx, ry, rz) = ((0 : ℚ), (0 : ℚ), (0 : ℚ)) →
        instanceLines [⟨target, .vec tx ty tz, .vec rx ry rz, some (.flt s), lbl⟩] idx x =
          [("  // Instance " ++ toString idx ++ ": " ++ lbl),
            ("  translate([" ++ fmtF x ++ ",0,0]) " ++
              ("rotate(" ++ tripStr (rx, ry, rz) ++ ") " ++
                ("scale([" ++ fmtF s ++ "," ++ fmtF s ++ "," ++ fmtF s ++ "]) " ++
                  (target ++ "();"))))]) := by
  refine ⟨?_, ?_, ?_, ?_⟩
  · intro m name tx ty tz rx ry rz s inl visited out hr hnv hok
    have hr2 : rx = 0 → ry = 0 → ¬ rz = 0 := by simpa using hr
    unfold emitUseScad at hok
    rw [dif_neg (by simpa [mkUse] using hnv)] at hok
    simp only [mkUse] at hok
    repeat' split at hok
    all_goals simp_all [safeVec3, fmtVal, posStr, tripStr]
    all_goals subst hok
    all_goals first
      | exact nest_semi _ _ _ _
      | exact nest_plain _ _ _ _
  · intro m name tx ty tz rx ry rz s visited hr hnv
    have hr2 : rx = 0 → ry = 0 → ¬ rz = 0 := by simpa using hr
    have hsemi : pyEndsWith (pyStrip ("translate(" ++
        ("[" ++ fmtF tx ++ "," ++ fmtF ty ++ "," ++ fmtF tz ++ "]") ++ ") " ++
        ("rotate(" ++ ("[" ++ fmtF rx ++ "," ++ fmtF ry ++ "," ++ fmtF rz ++ "]") ++ ") " ++
          ("scale([" ++ fmtF s ++ "," ++ fmtF s ++ "," ++ fmtF s ++ "]) " ++
            (sanitize name ++ "();"))))) (";") = true :=
      strip_endsWith_semi _ (endsSemi_append _ _ (endsSemi_append _ _ (endsSemi_append _ _
        (endsSemi_call _))))
    unfold emitUseScad
    rw [dif_neg (by simpa [mkUse] using hnv)]
    simp [mkUse, safeVec3, fmtVal, posStr, tripStr]
    rw [if_pos hr2]
    rw [if_neg (by simp [hsemi])]
  · intro target lbl tx ty tz rx ry rz s hr ht
    have hr2 : rx = 0 → ry = 0 → ¬ rz = 0 := by simpa using hr
    have ht2 : tx = 0 → ty = 0 → ¬ tz = 0 := by simpa using ht
    unfold Printy.V3.call_scad
    simp [Printy.V3.isZeroTuple, fmtVal]
    rw [if_pos ht2, if_pos hr2]
  · intro target lbl tx ty tz rx ry rz s x idx hr
    have hr2 : rx = 0 → ry = 0 → ¬ rz = 0 := by simpa using hr
    simp [instanceLines, safeVec3, fmtVal]
    rw [if_pos hr2]

open Printy Printy.V4 in
/-- Claim C5 witness: the nesting equations applied at concrete inputs. -/
theorem c5_witness :
    (¬ ((30 : ℚ), (0 : ℚ), (45 : ℚ)) = ((0 : ℚ), (0 : ℚ), (0 : ℚ)) ∧
      ¬ sanitize ("t") ∈ ([] : List String)) ∧
    (∃ body, "translate(" ++ posStr (Value.vec 1 2 3) ++ ") " ++
        ("rotate(" ++ tripStr (30, 0, 45) ++ ") " ++
          ("scale([" ++ fmtF 2 ++ "," ++ fmtF 2 ++ "," ++ fmtF 2 ++ "]) " ++
            (sanitize ("t") ++ "();"))) =
      "translate(" ++ posStr (Value.vec 1 2 3) ++ ") " ++
        ("rotate(" ++ tripStr (30, 0, 45) ++ ") " ++
          ("scale([" ++ fmtF 2 ++ "," ++ fmtF 2 ++ "," ++ fmtF 2 ++ "]) " ++ body))) ∧
    emitUseScad emptyModel (mkUse ("t") (.vec 1 2 3) (.vec 30 0 45) (some (.flt 2))) false [] =
      Except.ok ("translate(" ++ posStr (Value.vec 1 2 3) ++ ") " ++
        ("rotate(" ++ tripStr (30, 0, 45) ++ ") " ++
          ("scale([" ++ fmtF 2 ++ "," ++ fmtF 2 ++ "," ++ fmtF 2 ++ "]) " ++
            (sanitize ("t") ++ "();")))) ∧
    Printy.V3.call_scad ⟨"t", .vec 1 2 3, .vec 30 0 45, some (.flt 2), "USE t"⟩ =
      "translate(" ++ Printy.V3.posStr3 (Value.vec 1 2 3) ++ ") " ++
        ("rotate(" ++ Printy.V3.posStr3 (Value.vec 30 0 45) ++ ") " ++
          ("scale([" ++ fmtF 2 ++ "," ++ fmtF 2 ++ "," ++ fmtF 2 ++ "]) " ++
            ("t" ++ "();"))) ∧
    instanceLines [⟨"x", .vec 9 8 7, .vec 30 0 45, some (.flt 2), "USE x"⟩] 1 0 =
      [("  // Instance " ++ toString (1 : Nat) ++ ": " ++ "USE x"),
        ("  translate([" ++ fmtF 0 ++ ",0,0]) " ++
          ("rotate(" ++ tripStr (30, 0, 45) ++ ") " ++
            ("scale([" ++ fmtF 2 ++ "," ++ fmtF 2 ++ "," ++ fmtF 2 ++ "]) " ++
              ("x" ++ "();"))))] :=
  ⟨⟨by decide, by decide⟩,
    c5_transform_nesting_order.1 emptyModel ("t") 1 2 3 30 0 45 2 false []
      ("translate(" ++ posStr (Value.vec 1 2 3) ++ ") " ++
        ("rotate(" ++ tripStr (30, 0, 45) ++ ") " ++
          ("scale([" ++ fmtF 2 ++ "," ++ fmtF 2 ++ "," ++ fmtF 2 ++ "]) " ++
            (sanitize ("t") ++ "();"))))
      (by decide) (by decide)
      (c5_transform_nesting_order.2.1 emptyModel ("t") 1 2 3 30 0 45 2 [] (by decide) (by decide)),
    c5_transform_nesting_order.2.1 emptyModel ("t") 1 2 3 30 0 45 2 [] (by decide) (by decide),
    c5_transform_nesting_order.2.2.1 ("t") ("USE t") 1 2 3 30 0 45 2 (by decide) (by decide),
    c5_transform_nesting_order.2.2.2 ("x") ("USE x") 9 8 7 30 0 45 2 0 1 (by decide)⟩

open Printy Printy.V4 in
/-- Claim C6 counterexample: a Use node with a zero translate vector and an
explicit unit scale still gets a translate wrapper and a scale wrapper in the
emitted text, contradicting the claim that a zero translate emits no
translate wrapper and a unit scale emits no scale wrapper. -/
theorem c6_counterexample_zero_translate_unit_scale_wrapped :
    emitUseScad emptyModel (mkUse ("a") (.vec 0 0 0) (.vec 0 0 0) (some (.flt 1))) false [] =
      Except.ok ("translate([0.0,0.0,0.0]) scale([1.0,1.0,1.0]) a();") ∧
    strContains ("translate([0.0,0.0,0.0]) scale([1.0,1.0,1.0]) a();")
      ("translate([0.0,0.0,0.0])") = true ∧
    strContains ("translate([0.0,0.0,0.0]) scale([1.0,1.0,1.0]) a();")
      ("scale([1.0,1.0,1.0])") = true := by
  refine ⟨?_, by rfl, by rfl⟩
  simp +decide [emitUseScad, mkUse, sanitize, listStrip, wordChar, safeVec3, posStr, tripStr,
    fmtF, fracDigits, fmtVal, pyStrip, pyEndsWith]

open Printy Printy.V4 in
/-- Claim C6 as amended: a zero rotation vector emits no rotate wrapper and
an absent scale emits no scale wrapper, but the translate wrapper is always
emitted on a Use node, even for a zero translate vector; in the v0.4
assembly an Instance with zero rotation and no scale gets exactly the bare
layout translate wrapper. -/
theorem c6_noop_rotate_and_absent_scale_omitted :
    (∀ (m : Model) (name : String) (t : Value) (visited : List String),
        ¬ sanitize name ∈ visited →
        emitUseScad m (mkUse name t (.vec 0 0 0) none) false visited =
          Except.ok ("translate(" ++ posStr t ++ ") " ++ (sanitize name ++ "();"))) ∧
    (∀ (target lbl : String) (t : Value) (idx : Nat) (x : ℚ),
        instanceLines [⟨target, t, .vec 0 0 0, none, lbl⟩] idx x =
          [("  // Instance " ++ toString idx ++ ": " ++ lbl),
            ("  translate([" ++ fmtF x ++ ",0,0]) " ++ (target ++ "();"))]) := by
  constructor
  · intro m name t visited hnv
    have hsemi : pyEndsWith (pyStrip ("translate(" ++ posStr t ++ ") " ++
        (sanitize name ++ "();"))) (";") = true :=
      strip_endsWith_semi _ (endsSemi_append _ _ (endsSemi_call _))
    unfold emitUseScad
    rw [dif_neg (by simpa [mkUse] using hnv)]
    simp [mkUse, safeVec3]
    simp [hsemi]
  · intro target lbl t idx x
    simp [instanceLines, safeVec3]

open Printy Printy.V4 in
/-- Claim C6 witness: the amended equations applied at concrete inputs. -/
theorem c6_witness :
    (¬ sanitize ("a") ∈ ([] : List String)) ∧
    emitUseScad emptyModel (mkUse ("a") (.vec 0 0 0) (.vec 0 0 0) none) false [] =
      Except.ok ("translate(" ++ posStr (Value.vec 0 0 0) ++ ") " ++ (sanitize ("a") ++ "();")) ∧
    instanceLines [⟨"a", Value.vec 0 0 0, .vec 0 0 0, none, "USE a"⟩] 1 0 =
      [("  // Instance " ++ toString (1 : Nat) ++ ": " ++ "USE a"),
        ("  translate([" ++ fmtF 0 ++ ",0,0]) " ++ ("a" ++ "();"))] :=
  ⟨by decide,
    c6_noop_rotate_and_absent_scale_omitted.1 emptyModel ("a") (Value.vec 0 0 0) [] (by decide),
    c6_noop_rotate_and_absent_scale_omitted.2 ("a") ("USE a") (Value.vec 0 0 0) 1 0⟩
